import Mathlib

/-!
Shallow embedding of the four plotting scripts of MT25082_PA02
(`MT25082_plot_cache_misses.py`, `MT25082_plot_cycles_per_byte.py`,
`MT25082_plot_latency.py`, `MT25082_plot_throughput.py`).

Each script is a straight-line sequence of matplotlib configuration calls
on hardcoded literal data, ending in `plt.savefig(...)` followed by a
`print(...)` confirmation.  The embedding records, per script, the chart
configuration it constructs (the list of `ax.plot` calls with their data,
marker, color and label; the axis scale, ticks and tick labels; the figure
dimensions) together with the `savefig` arguments and the literal string
passed to the final `print`.  Python floats in the data tables are embedded
as the rational numbers denoted by the decimal literals; no floating-point
arithmetic occurs in the scripts.
-/

namespace MT25082

/-- Axis display scale: matplotlib's default `linear`, or the scale set by
`set_xscale('log', base=b)`. -/
inductive XScale where
  | linear : XScale
  | logBase : ℕ → XScale
deriving DecidableEq, Repr

/-- One `ax.plot(xs, ys, marker=..., linewidth=..., markersize=..., color=...,
label=...)` call: one data series drawn on a panel. -/
structure PlotCall where
  xs : List ℤ
  ys : List ℚ
  marker : String
  linewidth : ℚ
  markersize : ℚ
  color : String
  label : String
deriving DecidableEq, Repr

/-- The configuration of one panel (one matplotlib `Axes`): the `ax.plot`
calls issued on it in program order, the label/title strings, the x scale,
and the explicitly set ticks and tick labels (`none` would mean the script
left them to the library's computed defaults). -/
structure AxesConfig where
  plots : List PlotCall
  xlabel : String
  ylabel : String
  title : String
  xscale : XScale
  xticks : Option (List ℤ)
  xticklabels : Option (List String)
  legendLoc : String
deriving DecidableEq, Repr

/-- Figure-level configuration: the `figsize=(w, h)` pair passed to
`plt.subplots`, the panels in left-to-right order, the optional
`fig.suptitle` string, and the `fig.text` system-configuration annotation. -/
structure FigureConfig where
  figsizeW : ℚ
  figsizeH : ℚ
  axes : List AxesConfig
  suptitle : Option String
  figText : String
deriving DecidableEq, Repr

/-- The arguments of the `plt.savefig(filename, dpi=..., bbox_inches=...)`
call. -/
structure SavefigCall where
  filename : String
  dpi : ℕ
  bbox_inches : String
deriving DecidableEq, Repr

/-- Everything one script run constructs: the figure configuration, the
`savefig` arguments, and the literal string passed to the final `print`. -/
structure ScriptRun where
  fig : FigureConfig
  save : SavefigCall
  confirmation : String
deriving DecidableEq, Repr

/-- Observable I/O events of a script run. -/
inductive Event where
  | fileWritten : String → Event
  | stdoutLine : String → Event
  | raisedError : String → Event
deriving DecidableEq, Repr

/-- Semantics of the two trailing statements `plt.savefig(...)` followed by
`print(...)` under Python exception propagation: `none` means the filesystem
write succeeds, so the file is written and the confirmation line is printed
after it; `some msg` means the write raises a filesystem error `msg`, which
no script catches or translates, so it propagates unchanged, the print is
never reached, and the run terminates with that error (no retry). -/
def scriptEvents (r : ScriptRun) : Option String → List Event
  | none => [Event.fileWritten r.save.filename, Event.stdoutLine r.confirmation]
  | some msg => [Event.raisedError msg]

/-- Result of handing one series to the underlying plotting primitive. -/
inductive PlotResult where
  | line : List (ℤ × ℚ) → PlotResult
  | shapeError : String → PlotResult
deriving DecidableEq, Repr

/-- Modelled from the spec: the underlying plotting primitive (matplotlib's
line construction, which is not part of this repository) pairs x- and
y-values positionally and fails with a shape-mismatch error when the two
sequences have different lengths, rather than silently truncating or
padding; the scripts themselves perform no validation before calling it. -/
def plotLine (xs : List ℤ) (ys : List ℚ) : PlotResult :=
  if ys.length = xs.length then PlotResult.line (xs.zip ys)
  else PlotResult.shapeError "x and y must have same first dimension"

/-- The external inputs a process could in principle consult: command-line
arguments, environment variables, and disk/network-readable content.  The
four scripts consult none of these. -/
structure Environment where
  argv : List String
  envVars : String → Option String
  fileContents : String → Option String

end MT25082

namespace MT25082.plot_throughput

/-- Literal `msg_sizes = [64, 256, 1024, 4096]` (MT25082_plot_throughput.py). -/
def msg_sizes : List ℤ := [64, 256, 1024, 4096]

/-- Literal `throughput_a1 = [0.1032, 0.4394, 1.6734, 6.2939]`. -/
def throughput_a1 : List ℚ := [0.1032, 0.4394, 1.6734, 6.2939]

/-- Literal `throughput_a2 = [0.7531, 3.064, 11.4204, 39.766]`. -/
def throughput_a2 : List ℚ := [0.7531, 3.064, 11.4204, 39.766]

/-- Literal `throughput_a3 = [0.386, 1.7111, 6.4895, 24.3144]`. -/
def throughput_a3 : List ℚ := [0.386, 1.7111, 6.4895, 24.3144]

/-- The `system_config` annotation string. -/
def system_config : String :=
  "System: Linux 6.14.0 | CPU: 13th Gen Intel i7-13700H | RAM: 16 GB\n" ++
  "Network: veth pair (net namespaces) | Duration: 3s | Threads: avg across 1,2,4,8"

/-- The single panel of the throughput chart: three `ax.plot` calls in
program order, log-base-2 x scale, ticks and tick labels set to the literal
message sizes. -/
def ax : AxesConfig :=
  { plots :=
      [ { xs := msg_sizes, ys := throughput_a1, marker := "o", linewidth := 2,
          markersize := 8, color := "#e74c3c", label := "A1: Two-Copy (send/recv)" },
        { xs := msg_sizes, ys := throughput_a2, marker := "s", linewidth := 2,
          markersize := 8, color := "#2ecc71", label := "A2: One-Copy (sendmsg + iovec)" },
        { xs := msg_sizes, ys := throughput_a3, marker := "^", linewidth := 2,
          markersize := 8, color := "#3498db", label := "A3: Zero-Copy (MSG_ZEROCOPY)" } ],
    xlabel := "Message Size (bytes)",
    ylabel := "Throughput (Gbps)",
    title := "Throughput vs Message Size — Network I/O Primitives Comparison",
    xscale := XScale.logBase 2,
    xticks := some msg_sizes,
    xticklabels := some (msg_sizes.map (fun s => toString s)),
    legendLoc := "upper left" }

/-- The whole run of MT25082_plot_throughput.py. -/
def run : ScriptRun :=
  { fig := { figsizeW := 10, figsizeH := 6, axes := [ax], suptitle := none,
             figText := system_config },
    save := { filename := "MT25082_throughput.png", dpi := 200, bbox_inches := "tight" },
    confirmation := "Saved: MT25082_throughput.png" }

/-- The script as a function of the process environment: it consults no
command-line arguments, environment variables or file contents, so the
configuration it constructs ignores the environment entirely. -/
def main (_e : Environment) : ScriptRun := run

end MT25082.plot_throughput

namespace MT25082.plot_cache_misses

/-- Literal `msg_sizes = [64, 256, 1024, 4096]` (MT25082_plot_cache_misses.py). -/
def msg_sizes : List ℤ := [64, 256, 1024, 4096]

/-- Literal `l1_misses_a1 = [291968304, 309217729, 307166401, 347778830]`. -/
def l1_misses_a1 : List ℚ := [291968304, 309217729, 307166401, 347778830]

/-- Literal `l1_misses_a2 = [286537273, 314324731, 346897605, 513598431]`. -/
def l1_misses_a2 : List ℚ := [286537273, 314324731, 346897605, 513598431]

/-- Literal `l1_misses_a3 = [295035969, 294291095, 289806198, 454019805]`. -/
def l1_misses_a3 : List ℚ := [295035969, 294291095, 289806198, 454019805]

/-- Literal `llc_misses_a1 = [26389, 18359, 19765, 24503]`. -/
def llc_misses_a1 : List ℚ := [26389, 18359, 19765, 24503]

/-- Literal `llc_misses_a2 = [20707, 25050, 78139, 1652451]`. -/
def llc_misses_a2 : List ℚ := [20707, 25050, 78139, 1652451]

/-- Literal `llc_misses_a3 = [8207, 9827, 6801, 12790]`. -/
def llc_misses_a3 : List ℚ := [8207, 9827, 6801, 12790]

/-- The `system_config` annotation string. -/
def system_config : String :=
  "System: Linux 6.14.0 | CPU: 13th Gen Intel i7-13700H | RAM: 16 GB\n" ++
  "Network: veth pair (net namespaces) | Duration: 3s | Threads: avg across 1,2,4,8"

/-- Left subplot (`ax1`): L1 data cache misses, three `ax1.plot` calls in
program order, log-base-2 x scale, ticks and tick labels set to the literal
message sizes. -/
def ax1 : AxesConfig :=
  { plots :=
      [ { xs := msg_sizes, ys := l1_misses_a1, marker := "o", linewidth := 2,
          markersize := 8, color := "#e74c3c", label := "A1: Two-Copy (send/recv)" },
        { xs := msg_sizes, ys := l1_misses_a2, marker := "s", linewidth := 2,
          markersize := 8, color := "#2ecc71", label := "A2: One-Copy (sendmsg + iovec)" },
        { xs := msg_sizes, ys := l1_misses_a3, marker := "^", linewidth := 2,
          markersize := 8, color := "#3498db", label := "A3: Zero-Copy (MSG_ZEROCOPY)" } ],
    xlabel := "Message Size (bytes)",
    ylabel := "L1 Data Cache Misses",
    title := "L1 Cache Misses vs Message Size",
    xscale := XScale.logBase 2,
    xticks := some msg_sizes,
    xticklabels := some (msg_sizes.map (fun s => toString s)),
    legendLoc := "upper left" }

/-- Right subplot (`ax2`): LLC load misses, same structure as `ax1`. -/
def ax2 : AxesConfig :=
  { plots :=
      [ { xs := msg_sizes, ys := llc_misses_a1, marker := "o", linewidth := 2,
          markersize := 8, color := "#e74c3c", label := "A1: Two-Copy (send/recv)" },
        { xs := msg_sizes, ys := llc_misses_a2, marker := "s", linewidth := 2,
          markersize := 8, color := "#2ecc71", label := "A2: One-Copy (sendmsg + iovec)" },
        { xs := msg_sizes, ys := llc_misses_a3, marker := "^", linewidth := 2,
          markersize := 8, color := "#3498db", label := "A3: Zero-Copy (MSG_ZEROCOPY)" } ],
    xlabel := "Message Size (bytes)",
    ylabel := "LLC Load Misses",
    title := "LLC Load Misses vs Message Size",
    xscale := XScale.logBase 2,
    xticks := some msg_sizes,
    xticklabels := some (msg_sizes.map (fun s => toString s)),
    legendLoc := "upper left" }

/-- The whole run of MT25082_plot_cache_misses.py: a 1x2 figure,
`figsize=(14, 6)`, with the two subplots above and a suptitle. -/
def run : ScriptRun :=
  { fig := { figsizeW := 14, figsizeH := 6, axes := [ax1, ax2],
             suptitle := some
               "Cache Misses vs Message Size — Network I/O Primitives Comparison",
             figText := system_config },
    save := { filename := "MT25082_cache_misses.png", dpi := 200, bbox_inches := "tight" },
    confirmation := "Saved: MT25082_cache_misses.png" }

/-- The script ignores the process environment entirely. -/
def main (_e : Environment) : ScriptRun := run

end MT25082.plot_cache_misses

namespace MT25082.plot_cycles_per_byte

/-- Literal `msg_sizes = [64, 256, 1024, 4096]` (MT25082_plot_cycles_per_byte.py). -/
def msg_sizes : List ℤ := [64, 256, 1024, 4096]

/-- Literal `cycles_per_byte_a1 = [644.0, 161.7, 41.3, 10.8]`. -/
def cycles_per_byte_a1 : List ℚ := [644.0, 161.7, 41.3, 10.8]

/-- Literal `cycles_per_byte_a2 = [101.1, 25.5, 6.2, 1.9]`. -/
def cycles_per_byte_a2 : List ℚ := [101.1, 25.5, 6.2, 1.9]

/-- Literal `cycles_per_byte_a3 = [128.2, 29.7, 7.1, 2.2]`. -/
def cycles_per_byte_a3 : List ℚ := [128.2, 29.7, 7.1, 2.2]

/-- The `system_config` annotation string. -/
def system_config : String :=
  "System: Linux 6.14.0 | CPU: 13th Gen Intel i7-13700H | RAM: 16 GB\n" ++
  "Network: veth pair (net namespaces) | Duration: 3s | Threads: avg across 1,2,4,8"

/-- The single panel of the cycles-per-byte chart: three `ax.plot` calls in
program order, log-base-2 x scale, ticks and tick labels set to the literal
message sizes. -/
def ax : AxesConfig :=
  { plots :=
      [ { xs := msg_sizes, ys := cycles_per_byte_a1, marker := "o", linewidth := 2,
          markersize := 8, color := "#e74c3c", label := "A1: Two-Copy (send/recv)" },
        { xs := msg_sizes, ys := cycles_per_byte_a2, marker := "s", linewidth := 2,
          markersize := 8, color := "#2ecc71", label := "A2: One-Copy (sendmsg + iovec)" },
        { xs := msg_sizes, ys := cycles_per_byte_a3, marker := "^", linewidth := 2,
          markersize := 8, color := "#3498db", label := "A3: Zero-Copy (MSG_ZEROCOPY)" } ],
    xlabel := "Message Size (bytes)",
    ylabel := "CPU Cycles per Byte Transferred",
    title := "CPU Cycles per Byte vs Message Size — Network I/O Primitives Comparison",
    xscale := XScale.logBase 2,
    xticks := some msg_sizes,
    xticklabels := some (msg_sizes.map (fun s => toString s)),
    legendLoc := "upper right" }

/-- The whole run of MT25082_plot_cycles_per_byte.py. -/
def run : ScriptRun :=
  { fig := { figsizeW := 10, figsizeH := 6, axes := [ax], suptitle := none,
             figText := system_config },
    save := { filename := "MT25082_cycles_per_byte.png", dpi := 200, bbox_inches := "tight" },
    confirmation := "Saved: MT25082_cycles_per_byte.png" }

/-- The script ignores the process environment entirely. -/
def main (_e : Environment) : ScriptRun := run

end MT25082.plot_cycles_per_byte

namespace MT25082.plot_latency

/-- Literal `thread_counts = [1, 2, 4, 8]` (MT25082_plot_latency.py). -/
def thread_counts : List ℤ := [1, 2, 4, 8]

/-- Literal `latency_a1 = [14.56, 7.30, 3.95, 2.84]`. -/
def latency_a1 : List ℚ := [14.56, 7.30, 3.95, 2.84]

/-- Literal `latency_a2 = [2.24, 1.11, 0.58, 0.41]`. -/
def latency_a2 : List ℚ := [2.24, 1.11, 0.58, 0.41]

/-- Literal `latency_a3 = [3.43, 1.72, 1.05, 0.78]`. -/
def latency_a3 : List ℚ := [3.43, 1.72, 1.05, 0.78]

/-- The `system_config` annotation string. -/
def system_config : String :=
  "System: Linux 6.14.0 | CPU: 13th Gen Intel i7-13700H | RAM: 16 GB\n" ++
  "Network: veth pair (net namespaces) | Duration: 3s | Msg sizes: avg across 64,256,1024,4096"

/-- The single panel of the latency chart: three `ax.plot` calls in program
order; no `set_xscale` call is made, so the x scale stays matplotlib's
linear default, with ticks and tick labels set to the literal thread
counts. -/
def ax : AxesConfig :=
  { plots :=
      [ { xs := thread_counts, ys := latency_a1, marker := "o", linewidth := 2,
          markersize := 8, color := "#e74c3c", label := "A1: Two-Copy (send/recv)" },
        { xs := thread_counts, ys := latency_a2, marker := "s", linewidth := 2,
          markersize := 8, color := "#2ecc71", label := "A2: One-Copy (sendmsg + iovec)" },
        { xs := thread_counts, ys := latency_a3, marker := "^", linewidth := 2,
          markersize := 8, color := "#3498db", label := "A3: Zero-Copy (MSG_ZEROCOPY)" } ],
    xlabel := "Thread Count",
    ylabel := "Average Latency (µs / message)",
    title := "Latency vs Thread Count — Network I/O Primitives Comparison",
    xscale := XScale.linear,
    xticks := some thread_counts,
    xticklabels := some (thread_counts.map (fun t => toString t)),
    legendLoc := "upper left" }

/-- The whole run of MT25082_plot_latency.py. -/
def run : ScriptRun :=
  { fig := { figsizeW := 10, figsizeH := 6, axes := [ax], suptitle := none,
             figText := system_config },
    save := { filename := "MT25082_latency.png", dpi := 200, bbox_inches := "tight" },
    confirmation := "Saved: MT25082_latency.png" }

/-- The script ignores the process environment entirely. -/
def main (_e : Environment) : ScriptRun := run

end MT25082.plot_latency

namespace MT25082

/-- The four script runs of the repository, one per plotting script. -/
def allRuns : List ScriptRun :=
  [plot_cache_misses.run, plot_cycles_per_byte.run, plot_latency.run, plot_throughput.run]

end MT25082

/-- C1: each of the four scripts writes exactly one image file, with that
script's fixed hardcoded name, and prints exactly one confirmation line of
the form `Saved: <filename>` naming that same file; in particular the
cache-miss script writes `MT25082_cache_misses.png` and prints
`Saved: MT25082_cache_misses.png`. -/
theorem each_script_writes_one_file_and_confirms :
    MT25082.scriptEvents MT25082.plot_cache_misses.run none =
      [MT25082.Event.fileWritten "MT25082_cache_misses.png",
       MT25082.Event.stdoutLine "Saved: MT25082_cache_misses.png"] ∧
    MT25082.scriptEvents MT25082.plot_cycles_per_byte.run none =
      [MT25082.Event.fileWritten "MT25082_cycles_per_byte.png",
       MT25082.Event.stdoutLine "Saved: MT25082_cycles_per_byte.png"] ∧
    MT25082.scriptEvents MT25082.plot_latency.run none =
      [MT25082.Event.fileWritten "MT25082_latency.png",
       MT25082.Event.stdoutLine "Saved: MT25082_latency.png"] ∧
    MT25082.scriptEvents MT25082.plot_throughput.run none =
      [MT25082.Event.fileWritten "MT25082_throughput.png",
       MT25082.Event.stdoutLine "Saved: MT25082_throughput.png"] ∧
    (MT25082.allRuns.map
        (fun r => ("Saved: " ++ r.save.filename) == r.confirmation) =
      [true, true, true, true]) :=
  ⟨rfl, rfl, rfl, rfl, by decide⟩

/-- C2: in the throughput script, the first series plotted (the A1 two-copy
strategy) pairs the x-values 64, 256, 1024, 4096 positionally with exactly
the y-values 0.1032, 0.4394, 1.6734, 6.2939, the i-th y with the i-th x. -/
theorem throughput_two_copy_series_pairing :
    (MT25082.plot_throughput.ax.plots.get? 0).map
        (fun p => (p.label, p.xs.zip p.ys)) =
      some ("A1: Two-Copy (send/recv)",
        [((64 : ℤ), (0.1032 : ℚ)), (256, 0.4394), (1024, 1.6734), (4096, 6.2939)]) :=
  rfl

/-- C3: the latency script builds exactly one panel, with x ticks
`[1, 2, 4, 8]` and the linear (default) x scale — no log transform — while
every panel of the other three scripts uses a log-base-2 x scale on message
size. -/
theorem latency_linear_others_log2 :
    MT25082.plot_latency.run.fig.axes.length = 1 ∧
    MT25082.plot_latency.run.fig.axes.map (fun a => a.xticks) = [some [1, 2, 4, 8]] ∧
    MT25082.plot_latency.run.fig.axes.map (fun a => a.xscale) = [MT25082.XScale.linear] ∧
    MT25082.plot_cache_misses.run.fig.axes.map (fun a => a.xscale) =
      [MT25082.XScale.logBase 2, MT25082.XScale.logBase 2] ∧
    MT25082.plot_cycles_per_byte.run.fig.axes.map (fun a => a.xscale) =
      [MT25082.XScale.logBase 2] ∧
    MT25082.plot_throughput.run.fig.axes.map (fun a => a.xscale) =
      [MT25082.XScale.logBase 2] := by
  decide

/-- C4: every panel of the four scripts that uses a log-base-2 x scale has
its ticks explicitly set (not left to library-computed ticks) to the literal
values `[64, 256, 1024, 4096]`, with displayed tick labels equal to their
string forms `["64", "256", "1024", "4096"]` in that order. -/
theorem log2_panels_have_literal_ticks :
    ∀ r ∈ MT25082.allRuns, ∀ a ∈ r.fig.axes,
      a.xscale = MT25082.XScale.logBase 2 →
      a.xticks = some [64, 256, 1024, 4096] ∧
      a.xticklabels = some ["64", "256", "1024", "4096"] := by
  decide

/-- Witness for C4, at the throughput script's single log-base-2 panel. -/
theorem log2_panels_have_literal_ticks_witness :
    MT25082.plot_throughput.ax.xticks = some [64, 256, 1024, 4096] ∧
    MT25082.plot_throughput.ax.xticklabels = some ["64", "256", "1024", "4096"] :=
  log2_panels_have_literal_ticks MT25082.plot_throughput.run
    (by simp [MT25082.allRuns]) MT25082.plot_throughput.ax
    (by simp [MT25082.plot_throughput.run]) rfl

/-- C5: for every series plotted on any panel of any of the four scripts,
the y-value list has the same length as the x-axis list it is plotted
against, and with the shipped literal data that length is exactly 4. -/
theorem every_series_matches_axis_length :
    ∀ r ∈ MT25082.allRuns, ∀ a ∈ r.fig.axes, ∀ p ∈ a.plots,
      p.ys.length = p.xs.length ∧ p.ys.length = 4 := by
  decide

/-- Witness for C5, at the throughput script's A1 series. -/
theorem every_series_matches_axis_length_witness :
    MT25082.plot_throughput.throughput_a1.length =
      MT25082.plot_throughput.msg_sizes.length ∧
    MT25082.plot_throughput.throughput_a1.length = 4 :=
  every_series_matches_axis_length MT25082.plot_throughput.run
    (by simp [MT25082.allRuns]) MT25082.plot_throughput.ax
    (by simp [MT25082.plot_throughput.run])
    { xs := MT25082.plot_throughput.msg_sizes,
      ys := MT25082.plot_throughput.throughput_a1, marker := "o", linewidth := 2,
      markersize := 8, color := "#e74c3c", label := "A1: Two-Copy (send/recv)" }
    (by simp [MT25082.plot_throughput.ax])

/-- C6: each script consults no command-line arguments, environment
variables or file contents, so any two executions — under arbitrary, even
different, process environments — construct identical chart configurations
(identical figure dimensions, tick labels, series count and order, output
path and confirmation line). -/
theorem scripts_deterministic_ignore_environment :
    ∀ e₁ e₂ : MT25082.Environment,
      MT25082.plot_cache_misses.main e₁ = MT25082.plot_cache_misses.main e₂ ∧
      MT25082.plot_cycles_per_byte.main e₁ = MT25082.plot_cycles_per_byte.main e₂ ∧
      MT25082.plot_latency.main e₁ = MT25082.plot_latency.main e₂ ∧
      MT25082.plot_throughput.main e₁ = MT25082.plot_throughput.main e₂ :=
  fun _ _ => ⟨rfl, rfl, rfl, rfl⟩

/-- Witness for C6: two concrete environments that differ in argv, an
environment variable and a file, under which the latency script still
produces the same configuration. -/
theorem scripts_deterministic_ignore_environment_witness :
    MT25082.plot_latency.main
        { argv := [], envVars := fun _ => none, fileContents := fun _ => none } =
      MT25082.plot_latency.main
        { argv := ["--fast"], envVars := fun _ => some "1",
          fileContents := fun _ => some "data" } :=
  (scripts_deterministic_ignore_environment
      { argv := [], envVars := fun _ => none, fileContents := fun _ => none }
      { argv := ["--fast"], envVars := fun _ => some "1",
        fileContents := fun _ => some "data" }).2.2.1

/-- C7: for every script, when the image write raises a filesystem error the
error propagates unchanged (uncaught, untranslated, no retry) and the run
terminates without printing the `Saved:` line; when the write succeeds, the
confirmation line is printed only after the file has been written. -/
theorem savefig_failure_propagates_print_follows_write :
    ∀ r ∈ MT25082.allRuns,
      (∀ msg : String,
        MT25082.scriptEvents r (some msg) = [MT25082.Event.raisedError msg]) ∧
      MT25082.scriptEvents r none =
        [MT25082.Event.fileWritten r.save.filename,
         MT25082.Event.stdoutLine r.confirmation] := by
  intro r _
  exact ⟨fun _ => rfl, rfl⟩

/-- Witness for C7, at the latency script with a concrete filesystem
error. -/
theorem savefig_failure_propagates_print_follows_write_witness :
    MT25082.scriptEvents MT25082.plot_latency.run (some "Permission denied") =
      [MT25082.Event.raisedError "Permission denied"] ∧
    MT25082.scriptEvents MT25082.plot_latency.run none =
      [MT25082.Event.fileWritten "MT25082_latency.png",
       MT25082.Event.stdoutLine "Saved: MT25082_latency.png"] :=
  ⟨(savefig_failure_propagates_print_follows_write MT25082.plot_latency.run
      (by simp [MT25082.allRuns])).1 "Permission denied",
   (savefig_failure_propagates_print_follows_write MT25082.plot_latency.run
      (by simp [MT25082.allRuns])).2⟩

/-- Every plotted series in the four scripts has exactly 4 x-values and 4
y-values (shared helper fact about the shipped literal data). -/
theorem allRuns_plot_lengths :
    ∀ r ∈ MT25082.allRuns, ∀ a ∈ r.fig.axes, ∀ p ∈ a.plots,
      p.xs.length = 4 ∧ p.ys.length = 4 := by
  decide

/-- C8: every shipped series renders successfully as the positional pairing
of its x- and y-values, and removing any single value from any shipped
series's y-list makes the plotting primitive fail with a shape-mismatch
error rather than silently truncating or padding. -/
theorem removing_one_value_causes_shape_error :
    ∀ r ∈ MT25082.allRuns, ∀ a ∈ r.fig.axes, ∀ p ∈ a.plots,
      MT25082.plotLine p.xs p.ys = MT25082.PlotResult.line (p.xs.zip p.ys) ∧
      ∀ i < p.ys.length,
        MT25082.plotLine p.xs (p.ys.eraseIdx i) =
          MT25082.PlotResult.shapeError "x and y must have same first dimension" := by
  intro r hr a ha p hp
  obtain ⟨hx, hy⟩ := allRuns_plot_lengths r hr a ha p hp
  refine ⟨?_, ?_⟩
  · unfold MT25082.plotLine
    rw [if_pos (hy.trans hx.symm)]
  · intro i hi
    unfold MT25082.plotLine
    have h1 : (p.ys.eraseIdx i).length + 1 = p.ys.length :=
      List.length_eraseIdx_add_one hi
    rw [if_neg (by omega)]

/-- Witness for C8: dropping the first value of the throughput A1 series
makes the plot primitive fail with the shape-mismatch error. -/
theorem removing_one_value_causes_shape_error_witness :
    MT25082.plotLine MT25082.plot_throughput.msg_sizes
        (MT25082.plot_throughput.throughput_a1.eraseIdx 0) =
      MT25082.PlotResult.shapeError "x and y must have same first dimension" :=
  (removing_one_value_causes_shape_error MT25082.plot_throughput.run
      (by simp [MT25082.allRuns]) MT25082.plot_throughput.ax
      (by simp [MT25082.plot_throughput.run])
      { xs := MT25082.plot_throughput.msg_sizes,
        ys := MT25082.plot_throughput.throughput_a1, marker := "o", linewidth := 2,
        markersize := 8, color := "#e74c3c", label := "A1: Two-Copy (send/recv)" }
      (by simp [MT25082.plot_throughput.ax])).2 0 (by decide)

/-- C9: every one of the four scripts saves its image at exactly 200 dots
per inch with the bounding box trimmed to content (`bbox_inches='tight'`). -/
theorem all_savefig_200dpi_tight_bbox :
    ∀ r ∈ MT25082.allRuns, r.save.dpi = 200 ∧ r.save.bbox_inches = "tight" := by
  decide

/-- Witness for C9, at the cache-miss script. -/
theorem all_savefig_200dpi_tight_bbox_witness :
    MT25082.plot_cache_misses.run.save.dpi = 200 ∧
    MT25082.plot_cache_misses.run.save.bbox_inches = "tight" :=
  all_savefig_200dpi_tight_bbox MT25082.plot_cache_misses.run
    (by simp [MT25082.allRuns])

/-- C10: every panel of every script contains exactly three series, plotted
in the order A1 Two-Copy, A2 One-Copy, A3 Zero-Copy, with the fixed style
per strategy: A1 marker "o" color "#e74c3c", A2 marker "s" color "#2ecc71",
A3 marker "^" color "#3498db". -/
theorem panels_have_three_series_fixed_styles :
    ∀ r ∈ MT25082.allRuns, ∀ a ∈ r.fig.axes,
      a.plots.map (fun p => (p.label, p.marker, p.color)) =
        [("A1: Two-Copy (send/recv)", "o", "#e74c3c"),
         ("A2: One-Copy (sendmsg + iovec)", "s", "#2ecc71"),
         ("A3: Zero-Copy (MSG_ZEROCOPY)", "^", "#3498db")] := by
  decide

/-- Witness for C10, at the cache-miss script's LLC panel. -/
theorem panels_have_three_series_fixed_styles_witness :
    MT25082.plot_cache_misses.ax2.plots.map (fun p => (p.label, p.marker, p.color)) =
      [("A1: Two-Copy (send/recv)", "o", "#e74c3c"),
       ("A2: One-Copy (sendmsg + iovec)", "s", "#2ecc71"),
       ("A3: Zero-Copy (MSG_ZEROCOPY)", "^", "#3498db")] :=
  panels_have_three_series_fixed_styles MT25082.plot_cache_misses.run
    (by simp [MT25082.allRuns]) MT25082.plot_cache_misses.ax2
    (by simp [MT25082.plot_cache_misses.run])
